import Mathlib

/-!
Shallow embedding of the transcript-acquisition pipeline of the
youtube-summarizer repository (src/unnamed/part_000, third document:
downloadAndCleanYtDlpTranscript, safeDeleteFile, downloadAudio,
extractTranscript) and of generateSummary (src/src/summarize.ts).

External effects (environment variables, the yt-dlp process, the
filesystem, ytdl-core, the Deepgram client, the Gemini client) are
modelled by an explicit environment record describing each external
outcome, an explicit filesystem record for the two temporary files a
call can create, and an effects record logging which external services
were invoked.  All definitions are translated from the source.
-/

namespace YtSum

/-! ### VTT cleaning (downloadAndCleanYtDlpTranscript, lines 592-625)

The subtitle file content is split on the regex \r?\n, each line is
trimmed, header / cue-timing / cue-index lines are discarded, markup
tags and bracketed annotations are stripped by the regexes <[^>]*> and
\[.*?\] (both remove from an opening delimiter to the first closing
delimiter after it; with no closing delimiter anywhere the opening
character is kept literally, which is exactly the regex behaviour since
a later opening delimiter cannot find a closer either), the surviving
lines are deduplicated in first-seen order by [...new Set(textLines)]
and joined with single spaces. -/

/-- One global-replace pass of a delimiter-pair regex (<[^>]*> for
openc = <, closec = >, and the lazy \[.*?\] for openc = [, closec = ]):
each occurrence of the opening character together with everything up to
the first closing character after it is removed. When inTag, an opening
delimiter has been consumed and buf holds (reversed) the characters
seen since it; if the input ends while still inTag no closer exists
anywhere after that opening delimiter, so neither it nor any later
opening delimiter can match and the buffered text is emitted
literally — exactly the regex's no-match behaviour. -/
def stripDelimGo (openc closec : Char) : Bool → List Char → List Char → List Char
  | false, _, [] => []
  | true, buf, [] => openc :: buf.reverse
  | false, _, c :: rest =>
    if c = openc then stripDelimGo openc closec true [] rest
    else c :: stripDelimGo openc closec false [] rest
  | true, buf, c :: rest =>
    if c = closec then stripDelimGo openc closec false [] rest
    else stripDelimGo openc closec true (c :: buf) rest

def stripDelim (openc closec : Char) (l : List Char) : List Char :=
  stripDelimGo openc closec false [] l

/-- String.split on the regex \r?\n: every newline is a separator and
consumes one carriage return directly before it; cur holds the current
line reversed. -/
def splitLinesGo : List Char → List Char → List String
  | [], cur => [String.mk cur.reverse]
  | c :: rest, cur =>
    if c = '\n' then
      let line := match cur with
        | '\r' :: cur2 => cur2
        | _ => cur
      String.mk line.reverse :: splitLinesGo rest []
    else
      splitLinesGo rest (c :: cur)

def splitLines (s : String) : List String := splitLinesGo s.data []

/-- Substring test, translating String.prototype.includes. -/
def listIsInfix (pat : List Char) : List Char → Bool
  | [] => pat.isEmpty
  | c :: t => pat.isPrefixOf (c :: t) || listIsInfix pat t

/-- String.prototype.trim: strip whitespace from both ends (modelled
over the ASCII whitespace characters Char.isWhitespace covers). -/
def jsTrim (s : String) : String :=
  String.mk
    (((s.data.dropWhile Char.isWhitespace).reverse.dropWhile
        Char.isWhitespace).reverse)

/-- String.prototype.startsWith. -/
def strStarts (pre s : String) : Bool := pre.data.isPrefixOf s.data

/-- The discard conditions of the cleaning loop: empty line, WEBVTT /
Kind: / Language: headers, cue-timing lines containing the arrow, and
purely numeric cue-index lines (/^\d+$/). -/
def isSkippedLine (t : String) : Bool :=
  t == "" || strStarts "WEBVTT" t || strStarts "Kind:" t ||
  strStarts "Language:" t || listIsInfix ("-->".data) t.data ||
  (!(t == "") && t.data.all (fun c => c.isDigit))

/-- trimmedLine.replace(tags, '').replace(brackets, '').trim(). -/
def cleanLine (t : String) : String :=
  jsTrim (String.mk (stripDelim '[' ']' (stripDelim '<' '>' t.data)))

/-- The textLines accumulated by the loop of lines 596-615: per line,
trim, skip the discard cases, strip markup, and keep the result when
non-empty. -/
def textLines (content : String) : List String :=
  (splitLines content).filterMap (fun line =>
    let t := jsTrim line
    if isSkippedLine t then none
    else
      let c := cleanLine t
      if c == "" then none else some c)

/-- Insertion-order deduplication, the semantics of [...new Set(xs)]. -/
def dedupGo (seen : List String) : List String → List String
  | [] => []
  | x :: xs =>
    if seen.contains x then dedupGo seen xs else x :: dedupGo (x :: seen) xs

def dedupFirst (l : List String) : List String := dedupGo [] l

/-- fullParagraph of line 617. -/
def fullParagraph (content : String) : String :=
  String.intercalate " " (dedupFirst (textLines content))

/-- The value downloadAndCleanYtDlpTranscript resolves with, as a
function of the subtitle file on disk: none when the file is absent or
unreadable (the readFile throw is caught and null returned, the same
value as produced when the yt-dlp command itself fails), otherwise the
cleaned paragraph when non-empty, else null (lines 619-632). -/
def captionOutcome (vttProduced : Option String) : Option String :=
  match vttProduced with
  | none => none
  | some c =>
    let p := fullParagraph c
    if p.length > 0 then some p else none

/-! ### Deduplication lemmas -/

theorem dedupGo_sublist (seen l : List String) : (dedupGo seen l).Sublist l := by
  induction l generalizing seen with
  | nil => simp [dedupGo]
  | cons x xs ih =>
    simp only [dedupGo]
    split
    · exact (ih seen).trans (List.sublist_cons_self x xs)
    · exact (ih (x :: seen)).cons₂ x

theorem mem_dedupGo {a : String} (seen l : List String) :
    a ∈ dedupGo seen l ↔ a ∈ l ∧ a ∉ seen := by
  induction l generalizing seen with
  | nil => simp [dedupGo]
  | cons x xs ih =>
    by_cases hc : x ∈ seen
    · rw [dedupGo, if_pos (List.elem_iff.mpr hc), ih]
      constructor
      · rintro ⟨h1, h2⟩
        exact ⟨List.mem_cons_of_mem x h1, h2⟩
      · rintro ⟨h1, h2⟩
        rcases List.mem_cons.mp h1 with h | h
        · exact absurd (h ▸ hc) h2
        · exact ⟨h, h2⟩
    · rw [dedupGo, if_neg (fun hcc => hc (List.elem_iff.mp hcc))]
      by_cases hax : a = x
      · subst hax
        simp [ih, hc]
      · simp only [List.mem_cons, ih, hax, false_or]

theorem dedupGo_nodup (seen l : List String) : (dedupGo seen l).Nodup := by
  induction l generalizing seen with
  | nil => simp [dedupGo]
  | cons x xs ih =>
    simp only [dedupGo]
    split
    · exact ih seen
    · refine List.nodup_cons.mpr ⟨fun hmem => ?_, ih (x :: seen)⟩
      exact ((mem_dedupGo (x :: seen) xs).mp hmem).2 (List.mem_cons_self x seen)

theorem mem_dedupFirst {a : String} (l : List String) :
    a ∈ dedupFirst l ↔ a ∈ l := by
  unfold dedupFirst
  rw [mem_dedupGo]
  simp

theorem dedupFirst_nodup (l : List String) : (dedupFirst l).Nodup :=
  dedupGo_nodup [] l

theorem dedupFirst_sublist (l : List String) : (dedupFirst l).Sublist l :=
  dedupGo_sublist [] l

/-! ### Data model (interfaces TranscriptResult, VideoMetadata, and the
external-world outcomes each step of the pipeline can observe) -/

inductive Method
  | deepgram
  | youtubeCaptionsYdlp
deriving DecidableEq

structure Metadata where
  title : String
  author : String
  duration : Int
deriving DecidableEq

structure TranscriptResult where
  transcript : Option String
  speakers : Option (List String)
  method : Method
  confidence : Option Rat
  metadata : Option Metadata
deriving DecidableEq

/-- The fields of ytdl.getInfo's videoDetails that the pipeline reads
(title, author.name, lengthSeconds after parseInt). -/
structure VideoInfo where
  title : String
  author : String
  lengthSeconds : Int
deriving DecidableEq

inductive DownloadError
  | timeout
  | streamErr (msg : String)
deriving DecidableEq

/-- The parts of a successful Deepgram transcribeFile response the code
reads: channels[0].alternatives[0].transcript (?? null), its
confidence, and String(utterance.speaker) for each utterance (absent
utterances list gives none). -/
structure DeepgramResponse where
  transcript : Option String
  confidence : Option Rat
  utterances : Option (List String)
deriving DecidableEq

/-- One invocation's external world: environment variables and the
outcome of each external call, plus whether the unlink of each
temporary file would fail. -/
structure PipelineEnv where
  deepgramApiKey : Option String
  vttProduced : Option String
  getInfo : Option VideoInfo
  audioFormat : Bool
  download : Except DownloadError Unit
  readAudioOk : Bool
  deepgram : Except String DeepgramResponse
  vttDeleteFails : Bool
  audioDeleteFails : Bool

/-- The two temporary files a call can create:
transcripts/{videoId}.en.vtt and transcripts/{videoId}.mp4. -/
structure FS where
  vttOnDisk : Bool
  audioOnDisk : Bool
deriving DecidableEq

/-- Log of externally visible actions of one extractTranscript call. -/
structure Effects where
  captionAttempted : Bool
  fallbackEntered : Bool
  deepgramClientCreated : Bool
  deepgramCalled : Bool
  getInfoCalls : Nat
  downloadStarted : Bool
deriving DecidableEq

/-- The two errors extractTranscript itself throws (lines 716, 750). -/
inductive PipeError
  | missingParams
  | deepgramKeyMissing
deriving DecidableEq

structure RunOutcome where
  result : Except PipeError TranscriptResult
  fs : FS
  eff : Effects

/-! ### The pipeline functions -/

/-- safeDeleteFile (lines 652-661): unlink the file when it exists; an
unlink error is caught, logged, and swallowed, leaving the file in
place. Returns the file's new on-disk state; never throws. -/
def safeDeleteFile (deleteFails onDisk : Bool) : Bool :=
  if onDisk then (if deleteFails then true else false) else false

/-- Message of the Error rejected on timeout (line 696). -/
def timeoutMsg : String := "Download timeout after 5 minutes"

structure DownloadTrace where
  downloadStreamDestroyed : Bool
  writeStreamDestroyed : Bool
deriving DecidableEq

/-- downloadAudio (lines 666-704): fs.createWriteStream creates the
audio file on disk up front; on completion the promise resolves and the
timeout is cleared; when the 5-minute timer fires both the download
stream and the write stream are destroyed and the promise rejects with
the timeout error; on a stream error the promise rejects with that
error (the source destroys no stream on that path). The 5-minute bound
is real time, so the environment records only which of the three
outcomes the download had. -/
def downloadAudio (outcome : Except DownloadError Unit) (fs : FS) :
    Except DownloadError Unit × DownloadTrace × FS :=
  let fs1 : FS := { fs with audioOnDisk := true }
  match outcome with
  | .ok _ => (.ok (), ⟨false, false⟩, fs1)
  | .error .timeout => (.error .timeout, ⟨true, true⟩, fs1)
  | .error (.streamErr m) => (.error (.streamErr m), ⟨false, false⟩, fs1)

/-- downloadAndCleanYtDlpTranscript (lines 574-637): the yt-dlp process
leaves the subtitle file on disk exactly when the environment says it
was produced; the resolved value is captionOutcome (a yt-dlp or
readFile throw is caught and resolved as null, like an empty cleaned
paragraph); the finally block safe-deletes the subtitle file on every
exit. -/
def downloadAndCleanYtDlpTranscript (env : PipelineEnv) (fs : FS) :
    Option String × FS :=
  let fs1 : FS := { fs with vttOnDisk := env.vttProduced.isSome }
  let res := captionOutcome env.vttProduced
  let fs2 : FS := { fs1 with vttOnDisk := safeDeleteFile env.vttDeleteFails fs1.vttOnDisk }
  (res, fs2)

/-- Speaker extraction (lines 806-813): String(utterance.speaker) per
utterance, drop the sentinel strings that stringified undefined and
null produce, deduplicate in insertion order via [...new Set(...)];
undefined when there are no utterances or nothing survives the
filter. -/
def extractSpeakers (utterances : Option (List String)) : Option (List String) :=
  match utterances with
  | none => none
  | some us =>
    let speakers := us.filter (fun s => s != "undefined" && s != "null")
    if speakers.length > 0 then some (dedupFirst speakers) else none

/-- JavaScript truthiness of an optional environment string: unset and
empty string are both falsy. -/
def keyTruthy : Option String → Bool
  | none => false
  | some s => !(s == "")

def toMetadata (i : VideoInfo) : Metadata :=
  { title := i.title, author := i.author, duration := i.lengthSeconds }

/-- The result literal of the catch block (lines 850-856). -/
def nullDeepgramResult : TranscriptResult :=
  { transcript := none, speakers := none, method := .deepgram,
    confidence := none, metadata := none }

/-- The try block of METHOD 2 (lines 757-825): getInfo, chooseFormat,
downloadAudio, readFileSync, Deepgram transcribeFile, speaker
extraction, then the success cleanup and result. A .error in the first
component is a thrown exception, handled by the catch block of
extractTranscript. -/
def audioTry (env : PipelineEnv) (fs : FS) (eff : Effects) :
    Except String TranscriptResult × FS × Effects :=
  let eff1 : Effects := { eff with getInfoCalls := eff.getInfoCalls + 1 }
  match env.getInfo with
  | none => (.error "ytdl.getInfo failed", fs, eff1)
  | some info =>
    let md := toMetadata info
    if !env.audioFormat then
      (.error "No suitable audio format found for the video.", fs, eff1)
    else
      let eff2 : Effects := { eff1 with downloadStarted := true }
      let (dl, _, fs1) := downloadAudio env.download fs
      match dl with
      | .error .timeout => (.error timeoutMsg, fs1, eff2)
      | .error (.streamErr m) => (.error m, fs1, eff2)
      | .ok _ =>
        if !env.readAudioOk then (.error "readFileSync failed", fs1, eff2)
        else
          let eff3 : Effects := { eff2 with deepgramCalled := true }
          match env.deepgram with
          | .error m => (.error ("Deepgram API error: " ++ m), fs1, eff3)
          | .ok resp =>
            let uniqueSpeakers := extractSpeakers resp.utterances
            let fs2 : FS := { fs1 with
              audioOnDisk := safeDeleteFile env.audioDeleteFails fs1.audioOnDisk }
            (.ok { transcript := resp.transcript, speakers := uniqueSpeakers,
                   method := .deepgram, confidence := resp.confidence,
                   metadata := some md }, fs2, eff3)

/-- extractTranscript (lines 713-858): validate inputs, run the yt-dlp
caption method, on a truthy caption paragraph best-effort fetch
metadata and return the caption result; otherwise fall back, requiring
DEEPGRAM_API_KEY (throwing before the client is created), then run the
audio try block; its catch safe-deletes the audio file and returns the
null-transcript deepgram-tagged result. -/
def extractTranscript (env : PipelineEnv) (youtubeUrl videoId : String) : RunOutcome :=
  if youtubeUrl == "" || videoId == "" then
    { result := .error .missingParams,
      fs := ⟨false, false⟩,
      eff := ⟨false, false, false, false, 0, false⟩ }
  else
    let eff0 : Effects := ⟨true, false, false, false, 0, false⟩
    let (ytDlpTranscript, fs0) := downloadAndCleanYtDlpTranscript env ⟨false, false⟩
    match ytDlpTranscript with
    | some t =>
      let eff1 : Effects := { eff0 with getInfoCalls := 1 }
      let metadata := env.getInfo.map toMetadata
      { result := .ok { transcript := some t, speakers := none,
                        method := .youtubeCaptionsYdlp, confidence := none,
                        metadata := metadata },
        fs := fs0, eff := eff1 }
    | none =>
      let eff1 : Effects := { eff0 with fallbackEntered := true }
      if !(keyTruthy env.deepgramApiKey) then
        { result := .error .deepgramKeyMissing, fs := fs0, eff := eff1 }
      else
        let eff2 : Effects := { eff1 with deepgramClientCreated := true }
        match audioTry env fs0 eff2 with
        | (.ok res, fs1, eff3) => { result := .ok res, fs := fs1, eff := eff3 }
        | (.error _, fs1, eff3) =>
          let fs2 : FS := { fs1 with
            audioOnDisk := safeDeleteFile env.audioDeleteFails fs1.audioOnDisk }
          { result := .ok nullDeepgramResult, fs := fs2, eff := eff3 }

/-! ### generateSummary (src/src/summarize.ts) -/

structure VideoMetadata where
  title : String
  author : String
deriving DecidableEq

structure GeminiEnv where
  geminiApiKey : Option String
  service : Except String String

structure SummaryEffects where
  llmCalls : Nat
deriving DecidableEq

/-- generateSummary (summarize.ts lines 15-46): with a missing (or
empty, hence falsy) GEMINI_API_KEY it logs and returns null without
constructing a client or sending a request; otherwise
generateContent / response.text() runs once and any service error is
caught, logged, and turned into null. A .error in the first component
would be an uncaught throw; the function never produces one. -/
def generateSummary (env : GeminiEnv) (transcript : String)
    (videoMetadata : VideoMetadata) :
    Except String (Option String) × SummaryEffects :=
  if !(keyTruthy env.geminiApiKey) then
    (.ok none, ⟨0⟩)
  else
    match env.service with
    | .ok summary => (.ok (some summary), ⟨1⟩)
    | .error _ => (.ok none, ⟨1⟩)

/-! ### Helper lemmas about the pipeline -/

/-- FS state after the caption attempt: the subtitle file existed iff
yt-dlp produced it, and the finally block then safe-deleted it; no
audio file has been created yet. -/
def afterVttFs (env : PipelineEnv) : FS :=
  ⟨safeDeleteFile env.vttDeleteFails env.vttProduced.isSome, false⟩

theorem downloadAndClean_run (env : PipelineEnv) :
    downloadAndCleanYtDlpTranscript env ⟨false, false⟩ =
      (captionOutcome env.vttProduced, afterVttFs env) := rfl

theorem safeDeleteFile_ok (b : Bool) : safeDeleteFile false b = false := by
  cases b <;> rfl

/-- Unfolding: a truthy caption paragraph short-circuits the pipeline
into the caption result, metadata best-effort. -/
theorem extractTranscript_caption_some (env : PipelineEnv) (u v t : String)
    (hu : u ≠ "") (hv : v ≠ "") (hco : captionOutcome env.vttProduced = some t) :
    extractTranscript env u v =
      { result := .ok { transcript := some t, speakers := none,
                        method := .youtubeCaptionsYdlp, confidence := none,
                        metadata := env.getInfo.map toMetadata },
        fs := afterVttFs env,
        eff := ⟨true, false, false, false, 1, false⟩ } := by
  have hu' : (u == "") = false := by simp [hu]
  have hv' : (v == "") = false := by simp [hv]
  simp only [extractTranscript, hu', hv', Bool.or_self, Bool.or_false,
    downloadAndClean_run, hco]
  rfl

/-- Unfolding: null caption outcome with a falsy DEEPGRAM_API_KEY
throws the configuration error before any fallback step. -/
theorem extractTranscript_key_missing (env : PipelineEnv) (u v : String)
    (hu : u ≠ "") (hv : v ≠ "")
    (hco : captionOutcome env.vttProduced = none)
    (hkey : keyTruthy env.deepgramApiKey = false) :
    extractTranscript env u v =
      { result := .error .deepgramKeyMissing, fs := afterVttFs env,
        eff := ⟨true, true, false, false, 0, false⟩ } := by
  have hu' : (u == "") = false := by simp [hu]
  have hv' : (v == "") = false := by simp [hv]
  simp only [extractTranscript, hu', hv', Bool.or_self, Bool.or_false,
    downloadAndClean_run, hco, hkey, Bool.not_false]
  rfl

/-- Unfolding: null caption outcome with a truthy key runs the audio
try block and its catch handler. -/
theorem extractTranscript_fallback (env : PipelineEnv) (u v : String)
    (hu : u ≠ "") (hv : v ≠ "")
    (hco : captionOutcome env.vttProduced = none)
    (hkey : keyTruthy env.deepgramApiKey = true) :
    extractTranscript env u v =
      (match audioTry env (afterVttFs env) ⟨true, true, true, false, 0, false⟩ with
       | (.ok res, fs1, eff3) => ⟨.ok res, fs1, eff3⟩
       | (.error _, fs1, eff3) =>
          ⟨.ok nullDeepgramResult,
           { fs1 with audioOnDisk := safeDeleteFile env.audioDeleteFails fs1.audioOnDisk },
           eff3⟩) := by
  have hu' : (u == "") = false := by simp [hu]
  have hv' : (v == "") = false := by simp [hv]
  simp only [extractTranscript, hu', hv', Bool.or_self, Bool.or_false,
    downloadAndClean_run, hco, hkey, Bool.not_true]
  rfl

/-- The audio try block preserves the effect flags it does not own and
performs exactly one metadata fetch. -/
theorem audioTry_eff (env : PipelineEnv) (fs : FS) (eff : Effects) :
    ((audioTry env fs eff).2.2).captionAttempted = eff.captionAttempted
    ∧ ((audioTry env fs eff).2.2).fallbackEntered = eff.fallbackEntered
    ∧ ((audioTry env fs eff).2.2).deepgramClientCreated = eff.deepgramClientCreated
    ∧ ((audioTry env fs eff).2.2).getInfoCalls = eff.getInfoCalls + 1 := by
  rcases hgi : env.getInfo with _ | info <;>
  rcases hdl : env.download with (_ | m) | _ <;>
  rcases hdg : env.deepgram with m2 | resp <;>
  cases haf : env.audioFormat <;>
  cases hra : env.readAudioOk <;>
  simp [audioTry, downloadAudio, hgi, hdl, hdg, haf, hra]

/-- Any failing step of the audio try block ends it in a thrown
error. -/
theorem audioTry_fails (env : PipelineEnv) (fs : FS) (eff : Effects)
    (hfail : env.getInfo = none ∨ env.audioFormat = false ∨
             (∃ e, env.download = .error e) ∨ env.readAudioOk = false ∨
             (∃ m, env.deepgram = .error m)) :
    ∃ m, (audioTry env fs eff).1 = .error m := by
  rcases hgi : env.getInfo with _ | info <;>
  rcases hdl : env.download with (_ | m) | _ <;>
  rcases hdg : env.deepgram with m2 | resp <;>
  cases haf : env.audioFormat <;>
  cases hra : env.readAudioOk <;>
  simp_all [audioTry, downloadAudio]

/-- The try block marks the Deepgram call only after metadata, format
choice, download, and file read all succeeded. -/
theorem audioTry_called (env : PipelineEnv) (fs : FS) (eff : Effects)
    (hc : ((audioTry env fs eff).2.2).deepgramCalled = true) :
    eff.deepgramCalled = true ∨
      (env.getInfo ≠ none ∧ env.audioFormat = true ∧ env.download = .ok () ∧
        env.readAudioOk = true) := by
  rcases hgi : env.getInfo with _ | info <;>
  rcases hdl : env.download with (_ | m) | _ <;>
  rcases hdg : env.deepgram with m2 | resp <;>
  cases haf : env.audioFormat <;>
  cases hra : env.readAudioOk <;>
  simp_all [audioTry, downloadAudio]

/-- The try block never touches the subtitle file, and on its success
path it has already safe-deleted the audio file. -/
theorem audioTry_fs_clean (env : PipelineEnv) (fs : FS) (eff : Effects)
    (hda : env.audioDeleteFails = false) :
    (audioTry env fs eff).2.1.vttOnDisk = fs.vttOnDisk
    ∧ (∀ res, (audioTry env fs eff).1 = .ok res →
        (audioTry env fs eff).2.1.audioOnDisk = false) := by
  rcases hgi : env.getInfo with _ | info <;>
  rcases hdl : env.download with (_ | m) | _ <;>
  rcases hdg : env.deepgram with m2 | resp <;>
  cases haf : env.audioFormat <;>
  cases hra : env.readAudioOk <;>
  simp_all [audioTry, downloadAudio, safeDeleteFile]

/-- The try block's thrown/returned value and effect log depend neither
on the file-deletion outcomes nor on the incoming FS state. -/
theorem audioTry_indep (env : PipelineEnv) (dv da : Bool) (fs fs' : FS)
    (eff : Effects) :
    (audioTry { env with vttDeleteFails := dv, audioDeleteFails := da } fs' eff).1 =
      (audioTry env fs eff).1
    ∧ (audioTry { env with vttDeleteFails := dv, audioDeleteFails := da } fs' eff).2.2 =
      (audioTry env fs eff).2.2 := by
  rcases hgi : env.getInfo with _ | info <;>
  rcases hdl : env.download with (_ | m) | _ <;>
  rcases hdg : env.deepgram with m2 | resp <;>
  cases haf : env.audioFormat <;>
  cases hra : env.readAudioOk <;>
  simp_all [audioTry, downloadAudio]

/-- Any failure inside the audio try block lands in the catch handler,
whose value is the null-transcript deepgram-tagged result. -/
theorem extractTranscript_audio_error (env : PipelineEnv) (u v : String)
    (hu : u ≠ "") (hv : v ≠ "")
    (hco : captionOutcome env.vttProduced = none)
    (hkey : keyTruthy env.deepgramApiKey = true)
    (hfail : env.getInfo = none ∨ env.audioFormat = false ∨
             (∃ e, env.download = .error e) ∨ env.readAudioOk = false ∨
             (∃ m, env.deepgram = .error m)) :
    (extractTranscript env u v).result = .ok nullDeepgramResult := by
  rw [extractTranscript_fallback env u v hu hv hco hkey]
  obtain ⟨m, hm⟩ := audioTry_fails env (afterVttFs env)
    ⟨true, true, true, false, 0, false⟩ hfail
  rcases hat : audioTry env (afterVttFs env) ⟨true, true, true, false, 0, false⟩
    with ⟨r, fs1, eff3⟩
  rw [hat] at hm
  dsimp only at hm
  subst hm
  rfl

end YtSum

namespace YtSum

/-- C6: For every subtitle file content, the cleaned transcript
paragraph is the space-join of the cleaned kept lines deduplicated so
each distinct line occurs exactly once, in order of first occurrence
(a sublist of the kept lines with the same members and no
duplicates). -/
theorem c6_vtt_dedup_paragraph (content : String) :
    fullParagraph content =
      String.intercalate " " (dedupFirst (textLines content))
    ∧ (dedupFirst (textLines content)).Nodup
    ∧ (dedupFirst (textLines content)).Sublist (textLines content)
    ∧ (∀ a, a ∈ dedupFirst (textLines content) ↔ a ∈ textLines content)
    ∧ (∀ a, a ∈ textLines content →
        (dedupFirst (textLines content)).count a = 1) := by
  refine ⟨rfl, dedupFirst_nodup _, dedupFirst_sublist _,
    fun a => mem_dedupFirst _, fun a ha => ?_⟩
  exact List.count_eq_one_of_mem (dedupFirst_nodup _) ((mem_dedupFirst _).mpr ha)

theorem c6_vtt_dedup_paragraph_witness :
    (dedupFirst (textLines "WEBVTT\nhello\nhello\nworld")).count "hello" = 1 :=
  (c6_vtt_dedup_paragraph "WEBVTT\nhello\nhello\nworld").2.2.2.2 "hello" (by decide)

/-- C8: speaker-label extraction never returns the stringified
undefined/null sentinels, returns a duplicate-free list, is absent when
nothing survives the filter or there are no utterances, and maps the
speaker list ["0","1","0","null"] to exactly ["0","1"]. -/
theorem c8_speaker_extraction (us : List String) :
    ("undefined" ∉ (extractSpeakers (some us)).getD [])
    ∧ ("null" ∉ (extractSpeakers (some us)).getD [])
    ∧ ((extractSpeakers (some us)).getD []).Nodup
    ∧ (us.filter (fun s => s != "undefined" && s != "null") = [] →
        extractSpeakers (some us) = none)
    ∧ extractSpeakers none = none
    ∧ extractSpeakers (some ["0", "1", "0", "null"]) = some ["0", "1"] := by
  have key : ∀ a : String, a ∈ (extractSpeakers (some us)).getD [] →
      a ∈ us.filter (fun s => s != "undefined" && s != "null") := by
    intro a ha
    simp only [extractSpeakers] at ha
    split at ha
    · rw [Option.getD_some] at ha
      exact (mem_dedupFirst _).mp ha
    · simp at ha
  refine ⟨?_, ?_, ?_, ?_, rfl, by decide⟩
  · intro h
    have hmem := key _ h
    simp [List.mem_filter] at hmem
  · intro h
    have hmem := key _ h
    simp [List.mem_filter] at hmem
  · simp only [extractSpeakers]
    split
    · rw [Option.getD_some]
      exact dedupFirst_nodup _
    · simp
  · intro hnil
    simp [extractSpeakers, hnil]

theorem c8_speaker_extraction_witness :
    extractSpeakers (some ["undefined", "null"]) = none :=
  (c8_speaker_extraction ["undefined", "null"]).2.2.2.1 (by decide)

/-- C9: generateSummary never throws (its outcome is always .ok), a
missing or empty GEMINI_API_KEY yields null with zero language-model
calls, a service error yields null rather than an exception, and the
service is invoked at most once (no retry). -/
theorem c9_generateSummary (env : GeminiEnv) (t : String) (md : VideoMetadata) :
    (∃ o, (generateSummary env t md).1 = .ok o)
    ∧ (keyTruthy env.geminiApiKey = false →
        generateSummary env t md = (.ok none, ⟨0⟩))
    ∧ (∀ m, env.service = .error m → (generateSummary env t md).1 = .ok none)
    ∧ (generateSummary env t md).2.llmCalls ≤ 1 := by
  by_cases hk : keyTruthy env.geminiApiKey = true
  · rcases hs : env.service with m | s
    · exact ⟨⟨none, by simp [generateSummary, hk, hs]⟩,
        by simp [hk],
        fun m' _ => by simp [generateSummary, hk, hs],
        by simp [generateSummary, hk, hs]⟩
    · refine ⟨⟨some s, by simp [generateSummary, hk, hs]⟩,
        by simp [hk], fun m' hm' => ?_, by simp [generateSummary, hk, hs]⟩
      exact Except.noConfusion hm'
  · rw [Bool.not_eq_true] at hk
    exact ⟨⟨none, by simp [generateSummary, hk]⟩,
      fun _ => by simp [generateSummary, hk],
      fun m' _ => by simp [generateSummary, hk],
      by simp [generateSummary, hk]⟩

theorem c9_generateSummary_witness :
    generateSummary ⟨none, Except.ok "sum"⟩ "text" ⟨"title", "author"⟩ =
      (Except.ok none, ⟨0⟩) :=
  (c9_generateSummary ⟨none, Except.ok "sum"⟩ "text" ⟨"title", "author"⟩).2.1 rfl

/-- C1: with both arguments non-empty, the caption method is attempted
first; a non-null caption paragraph yields the caption-tagged result
with the Deepgram client never created nor called and the fallback
never entered; the fallback is entered only when the caption outcome is
null. -/
theorem c1_caption_first (env : PipelineEnv) (u v : String)
    (hu : u ≠ "") (hv : v ≠ "") :
    (extractTranscript env u v).eff.captionAttempted = true
    ∧ (∀ t, captionOutcome env.vttProduced = some t →
        (extractTranscript env u v).result =
          .ok ⟨some t, none, .youtubeCaptionsYdlp, none, env.getInfo.map toMetadata⟩
        ∧ (extractTranscript env u v).eff.deepgramClientCreated = false
        ∧ (extractTranscript env u v).eff.deepgramCalled = false
        ∧ (extractTranscript env u v).eff.fallbackEntered = false)
    ∧ ((extractTranscript env u v).eff.fallbackEntered = true →
        captionOutcome env.vttProduced = none) := by
  rcases hco : captionOutcome env.vttProduced with _ | t
  · refine ⟨?_, ?_, fun _ => rfl⟩
    · by_cases hkey : keyTruthy env.deepgramApiKey = true
      · rw [extractTranscript_fallback env u v hu hv hco hkey]
        rcases hat : audioTry env (afterVttFs env) ⟨true, true, true, false, 0, false⟩
          with ⟨r, fs1, eff3⟩
        have heff := (audioTry_eff env (afterVttFs env)
          ⟨true, true, true, false, 0, false⟩).1
        rw [hat] at heff
        dsimp only at heff
        cases r <;> exact heff
      · rw [Bool.not_eq_true] at hkey
        rw [extractTranscript_key_missing env u v hu hv hco hkey]
    · intro t ht
      exact Option.noConfusion ht
  · refine ⟨?_, ?_, ?_⟩
    · rw [extractTranscript_caption_some env u v t hu hv hco]
    · intro t' ht'
      injection ht' with ht'
      subst ht'
      rw [extractTranscript_caption_some env u v t hu hv hco]
      exact ⟨rfl, rfl, rfl, rfl⟩
    · intro hfb
      rw [extractTranscript_caption_some env u v t hu hv hco] at hfb
      exact Bool.noConfusion hfb

theorem c1_caption_first_witness :
    (extractTranscript
      ⟨some "k", some "hello there", none, true, Except.ok (), true,
        Except.error "x", false, false⟩ "u" "v").eff.deepgramCalled = false :=
  ((c1_caption_first
      ⟨some "k", some "hello there", none, true, Except.ok (), true,
        Except.error "x", false, false⟩ "u" "v"
      (by decide) (by decide)).2.1 "hello there" (by decide)).2.2.1

/-- C2: with captions unavailable and the key configured, every
failing step of the audio fallback (metadata fetch, format choice,
download including timeout, audio read, Deepgram call) is caught: the
call returns a result (does not throw) and its transcript is null. -/
theorem c2_audio_failure_returns_null (env : PipelineEnv) (u v : String)
    (hu : u ≠ "") (hv : v ≠ "")
    (hco : captionOutcome env.vttProduced = none)
    (hkey : keyTruthy env.deepgramApiKey = true)
    (hfail : env.getInfo = none ∨ env.audioFormat = false ∨
             (∃ e, env.download = .error e) ∨ env.readAudioOk = false ∨
             (∃ m, env.deepgram = .error m)) :
    (extractTranscript env u v).result = .ok nullDeepgramResult
    ∧ ∀ r, (extractTranscript env u v).result = .ok r → r.transcript = none := by
  have h := extractTranscript_audio_error env u v hu hv hco hkey hfail
  refine ⟨h, fun r hr => ?_⟩
  rw [h] at hr
  injection hr with hr
  subst hr
  rfl

theorem c2_audio_failure_returns_null_witness :
    (extractTranscript
      ⟨some "k", none, none, true, Except.ok (), true,
        Except.ok ⟨some "t", none, none⟩, false, false⟩ "u" "v").result =
      Except.ok nullDeepgramResult :=
  (c2_audio_failure_returns_null
      ⟨some "k", none, none, true, Except.ok (), true,
        Except.ok ⟨some "t", none, none⟩, false, false⟩ "u" "v"
      (by decide) (by decide) rfl (by decide) (Or.inl rfl)).1

/-- C3: with captions unavailable and DEEPGRAM_API_KEY unset, the call
fails with the configuration error before the Deepgram client is
created, before any metadata fetch, and before any audio download. -/
theorem c3_key_missing_fails_fast (env : PipelineEnv) (u v : String)
    (hu : u ≠ "") (hv : v ≠ "")
    (hco : captionOutcome env.vttProduced = none)
    (hkey : env.deepgramApiKey = none) :
    (extractTranscript env u v).result = .error .deepgramKeyMissing
    ∧ (extractTranscript env u v).eff.deepgramClientCreated = false
    ∧ (extractTranscript env u v).eff.deepgramCalled = false
    ∧ (extractTranscript env u v).eff.getInfoCalls = 0
    ∧ (extractTranscript env u v).eff.downloadStarted = false := by
  have hk : keyTruthy env.deepgramApiKey = false := by rw [hkey]; rfl
  rw [extractTranscript_key_missing env u v hu hv hco hk]
  exact ⟨rfl, rfl, rfl, rfl, rfl⟩

theorem c3_key_missing_fails_fast_witness :
    (extractTranscript
      ⟨none, none, none, true, Except.ok (), true, Except.error "x",
        false, false⟩ "u" "v").result = Except.error PipeError.deepgramKeyMissing :=
  (c3_key_missing_fails_fast
      ⟨none, none, none, true, Except.ok (), true, Except.error "x",
        false, false⟩ "u" "v" (by decide) (by decide) rfl rfl).1

/-- C4: when the audio download hits the 5-minute timeout, both the
download stream and the write stream are destroyed, the download
operation rejects with the timeout error (whose message names the
5-minute bound), extractTranscript returns the null-transcript result,
and (the unlink succeeding) no audio file created by the call remains
on disk. -/
theorem c4_download_timeout (env : PipelineEnv) (u v : String) (fs : FS)
    (hu : u ≠ "") (hv : v ≠ "")
    (hco : captionOutcome env.vttProduced = none)
    (hkey : keyTruthy env.deepgramApiKey = true)
    (hdl : env.download = .error .timeout)
    (hda : env.audioDeleteFails = false) :
    (downloadAudio env.download fs).1 = .error .timeout
    ∧ (downloadAudio env.download fs).2.1 = ⟨true, true⟩
    ∧ timeoutMsg = "Download timeout after 5 minutes"
    ∧ (extractTranscript env u v).result = .ok nullDeepgramResult
    ∧ (extractTranscript env u v).fs.audioOnDisk = false := by
  refine ⟨by rw [hdl]; rfl, by rw [hdl]; rfl, rfl, ?_, ?_⟩
  · exact extractTranscript_audio_error env u v hu hv hco hkey
      (Or.inr (Or.inr (Or.inl ⟨_, hdl⟩)))
  · rw [extractTranscript_fallback env u v hu hv hco hkey]
    obtain ⟨m, hm⟩ := audioTry_fails env (afterVttFs env)
      ⟨true, true, true, false, 0, false⟩ (Or.inr (Or.inr (Or.inl ⟨_, hdl⟩)))
    rcases hat : audioTry env (afterVttFs env) ⟨true, true, true, false, 0, false⟩
      with ⟨r, fs1, eff3⟩
    rw [hat] at hm
    dsimp only at hm
    subst hm
    dsimp only
    rw [hda]
    exact safeDeleteFile_ok _

theorem c4_download_timeout_witness :
    (extractTranscript
      ⟨some "k", none, some ⟨"t", "a", (10 : Int)⟩, true,
        Except.error DownloadError.timeout, true,
        Except.ok ⟨some "x", none, none⟩, false, false⟩ "u" "v").fs.audioOnDisk =
      false :=
  (c4_download_timeout
      ⟨some "k", none, some ⟨"t", "a", (10 : Int)⟩, true,
        Except.error DownloadError.timeout, true,
        Except.ok ⟨some "x", none, none⟩, false, false⟩ "u" "v" ⟨false, false⟩
      (by decide) (by decide) rfl (by decide) rfl rfl).2.2.2.2

/-- C5: when the filesystem honours the unlinks, every exit path of
extractTranscript leaves neither temporary file on disk; and the
outcomes of the two unlinks influence neither the returned result nor
the effect log, so deletion failures never escalate. -/
theorem c5_cleanup (env : PipelineEnv) (u v : String)
    (hu : u ≠ "") (hv : v ≠ "")
    (hdv : env.vttDeleteFails = false) (hda : env.audioDeleteFails = false) :
    (extractTranscript env u v).fs = ⟨false, false⟩
    ∧ (∀ dv da,
        (extractTranscript { env with vttDeleteFails := dv, audioDeleteFails := da } u v).result =
          (extractTranscript env u v).result
        ∧ (extractTranscript { env with vttDeleteFails := dv, audioDeleteFails := da } u v).eff =
          (extractTranscript env u v).eff) := by
  constructor
  · rcases hco : captionOutcome env.vttProduced with _ | t
    · by_cases hkey : keyTruthy env.deepgramApiKey = true
      · rw [extractTranscript_fallback env u v hu hv hco hkey]
        have hfs := audioTry_fs_clean env (afterVttFs env)
          ⟨true, true, true, false, 0, false⟩ hda
        rcases hat : audioTry env (afterVttFs env) ⟨true, true, true, false, 0, false⟩
          with ⟨r, fs1, eff3⟩
        rw [hat] at hfs
        dsimp only at hfs
        have hvtt : fs1.vttOnDisk = false := by
          rw [hfs.1]
          simp [afterVttFs, hdv, safeDeleteFile_ok]
        cases r with
        | ok res =>
          have haud : fs1.audioOnDisk = false := hfs.2 res rfl
          dsimp only
          cases fs1
          simp_all
        | error m =>
          dsimp only
          rw [hda, safeDeleteFile_ok]
          cases fs1
          simp_all
      · rw [Bool.not_eq_true] at hkey
        rw [extractTranscript_key_missing env u v hu hv hco hkey]
        simp [afterVttFs, hdv, safeDeleteFile_ok]
    · rw [extractTranscript_caption_some env u v t hu hv hco]
      simp [afterVttFs, hdv, safeDeleteFile_ok]
  · intro dv da
    have hco' : captionOutcome ({ env with vttDeleteFails := dv, audioDeleteFails := da } : PipelineEnv).vttProduced = captionOutcome env.vttProduced := rfl
    have hkey' : keyTruthy ({ env with vttDeleteFails := dv, audioDeleteFails := da } : PipelineEnv).deepgramApiKey = keyTruthy env.deepgramApiKey := rfl
    rcases hco : captionOutcome env.vttProduced with _ | t
    · by_cases hkey : keyTruthy env.deepgramApiKey = true
      · rw [extractTranscript_fallback env u v hu hv hco hkey,
          extractTranscript_fallback _ u v hu hv (hco' ▸ hco) (hkey' ▸ hkey)]
        have hind := audioTry_indep env dv da (afterVttFs env)
          (afterVttFs { env with vttDeleteFails := dv, audioDeleteFails := da })
          ⟨true, true, true, false, 0, false⟩
        rcases hat : audioTry env (afterVttFs env) ⟨true, true, true, false, 0, false⟩
          with ⟨r, fs1, eff3⟩
        rcases hat' : audioTry { env with vttDeleteFails := dv, audioDeleteFails := da }
          (afterVttFs { env with vttDeleteFails := dv, audioDeleteFails := da })
          ⟨true, true, true, false, 0, false⟩ with ⟨r', fs1', eff3'⟩
        rw [hat, hat'] at hind
        dsimp only at hind
        obtain ⟨hr, he⟩ := hind
        rw [hr, he]
        cases r <;> exact ⟨rfl, rfl⟩
      · rw [Bool.not_eq_true] at hkey
        rw [extractTranscript_key_missing env u v hu hv hco hkey,
          extractTranscript_key_missing _ u v hu hv (hco' ▸ hco) (by rw [hkey', hkey])]
        exact ⟨rfl, rfl⟩
    · rw [extractTranscript_caption_some env u v t hu hv hco,
        extractTranscript_caption_some _ u v t hu hv (hco' ▸ hco)]
      exact ⟨rfl, rfl⟩

theorem c5_cleanup_witness :
    (extractTranscript
      ⟨some "k", some "hello there", none, true, Except.ok (), true,
        Except.error "x", false, false⟩ "u" "v").fs = ⟨false, false⟩ :=
  (c5_cleanup
      ⟨some "k", some "hello there", none, true, Except.ok (), true,
        Except.error "x", false, false⟩ "u" "v"
      (by decide) (by decide) rfl rfl).1

/-- C7: a subtitle file whose every line is discarded by the header /
cue-timing / cue-index filters or cleans to nothing yields the empty
paragraph, the caption method resolves null, and extractTranscript
proceeds to the audio-transcription fallback. -/
theorem c7_noise_only_falls_back (env : PipelineEnv) (u v content : String)
    (hu : u ≠ "") (hv : v ≠ "")
    (hc : env.vttProduced = some content)
    (hnoise : ∀ line ∈ splitLines content,
        isSkippedLine (jsTrim line) = true ∨ cleanLine (jsTrim line) = "") :
    fullParagraph content = ""
    ∧ captionOutcome env.vttProduced = none
    ∧ (extractTranscript env u v).eff.fallbackEntered = true := by
  have htl : textLines content = [] := by
    rw [textLines, List.filterMap_eq_nil_iff]
    intro line hline
    rcases hnoise line hline with h | h <;> simp [h]
  have hfp : fullParagraph content = "" := by
    rw [fullParagraph, htl]
    rfl
  have hco : captionOutcome env.vttProduced = none := by
    rw [hc]
    show (if (fullParagraph content).length > 0 then some (fullParagraph content)
          else none) = none
    rw [hfp]
    rfl
  refine ⟨hfp, hco, ?_⟩
  by_cases hkey : keyTruthy env.deepgramApiKey = true
  · rw [extractTranscript_fallback env u v hu hv hco hkey]
    rcases hat : audioTry env (afterVttFs env) ⟨true, true, true, false, 0, false⟩
      with ⟨r, fs1, eff3⟩
    have heff := (audioTry_eff env (afterVttFs env)
      ⟨true, true, true, false, 0, false⟩).2.1
    rw [hat] at heff
    dsimp only at heff
    cases r <;> exact heff
  · rw [Bool.not_eq_true] at hkey
    rw [extractTranscript_key_missing env u v hu hv hco hkey]

theorem c7_noise_only_falls_back_witness :
    (extractTranscript
      ⟨some "k", some "WEBVTT\n1\n00:00:01.000 --> 00:00:02.000\n<c>[Music]</c>",
        none, true, Except.ok (), true, Except.error "x", false, false⟩
      "u" "v").eff.fallbackEntered = true :=
  (c7_noise_only_falls_back
      ⟨some "k", some "WEBVTT\n1\n00:00:01.000 --> 00:00:02.000\n<c>[Music]</c>",
        none, true, Except.ok (), true, Except.error "x", false, false⟩
      "u" "v" "WEBVTT\n1\n00:00:01.000 --> 00:00:02.000\n<c>[Music]</c>"
      (by decide) (by decide) rfl (by decide)).2.2

/-- C10: every audio-path error exit returns exactly the record with
null transcript, method deepgram, and no confidence, speakers, or
metadata — even though the metadata fetch (always attempted exactly
once on this path) may have succeeded, and even when the failure
preceded any Deepgram call — so the result does not reveal the failure
stage. -/
theorem c10_error_exit_indistinct (env : PipelineEnv) (u v : String)
    (hu : u ≠ "") (hv : v ≠ "")
    (hco : captionOutcome env.vttProduced = none)
    (hkey : keyTruthy env.deepgramApiKey = true)
    (hfail : env.getInfo = none ∨ env.audioFormat = false ∨
             (∃ e, env.download = .error e) ∨ env.readAudioOk = false ∨
             (∃ m, env.deepgram = .error m)) :
    (extractTranscript env u v).result =
      .ok { transcript := none, speakers := none, method := .deepgram,
            confidence := none, metadata := none }
    ∧ (extractTranscript env u v).eff.getInfoCalls = 1
    ∧ (env.getInfo = none → (extractTranscript env u v).eff.deepgramCalled = false) := by
  refine ⟨extractTranscript_audio_error env u v hu hv hco hkey hfail, ?_, ?_⟩
  · rw [extractTranscript_fallback env u v hu hv hco hkey]
    rcases hat : audioTry env (afterVttFs env) ⟨true, true, true, false, 0, false⟩
      with ⟨r, fs1, eff3⟩
    have heff := (audioTry_eff env (afterVttFs env)
      ⟨true, true, true, false, 0, false⟩).2.2.2
    rw [hat] at heff
    dsimp only at heff
    cases r <;> exact heff
  · intro hgi
    rw [extractTranscript_fallback env u v hu hv hco hkey]
    rcases hat : audioTry env (afterVttFs env) ⟨true, true, true, false, 0, false⟩
      with ⟨r, fs1, eff3⟩
    by_cases hdc : eff3.deepgramCalled = true
    · have hcall := audioTry_called env (afterVttFs env)
        ⟨true, true, true, false, 0, false⟩ (by rw [hat]; exact hdc)
      rcases hcall with h | ⟨hne, _⟩
      · exact Bool.noConfusion h
      · exact absurd hgi hne
    · rw [Bool.not_eq_true] at hdc
      cases r <;> exact hdc

theorem c10_error_exit_indistinct_witness :
    (extractTranscript
      ⟨some "k", none, none, true, Except.ok (), true,
        Except.ok ⟨some "t", none, none⟩, false, false⟩ "u" "v").eff.deepgramCalled =
      false :=
  (c10_error_exit_indistinct
      ⟨some "k", none, none, true, Except.ok (), true,
        Except.ok ⟨some "t", none, none⟩, false, false⟩ "u" "v"
      (by decide) (by decide) rfl (by decide) (Or.inl rfl)).2.2 rfl

end YtSum
